import Mathlib

/-!
Verification development for the AI accounting demo application (`app.py`).

The application is a thin orchestration layer: uploaded document bytes are
hashed (SHA-256), cached JSON responses are looked up in per-namespace
file caches (`documents`, `queries`, `reports`), and on a miss a remote
model gateway is called, its text response parsed as JSON, and the result
persisted before being returned.

Shallow embedding conventions:
* Bytes are `List Nat` (each entry < 256).
* JSON values are the inductive `Json`; Python's insertion-ordered dicts
  become ordered association lists of members.
* A cache namespace on disk becomes an ordered association list
  `Cache = List (String × Json)`; `json.dump` followed by a later
  `json.load` of the same file is modelled as storing the value itself.
* The remote HTTP gateway (`requests.post` inside `call_openrouter`) is an
  oracle parameter `GwRequest → Except Nat String` (the `Nat` is the HTTP
  error); every invocation is recorded as a `net` event in the trace so
  that "zero network requests" is a statement about the trace.
* `time.sleep s` is recorded as a `sleep` event holding the duration in
  milliseconds.
* Python's `json.loads` (an external library function) is an abstract
  strict-parser parameter `String → Option Json`; `none` models a raised
  `JSONDecodeError`.
-/

set_option autoImplicit false

namespace App

/-- JSON values; object members keep Python-dict insertion order. -/
inductive Json where
  | null : Json
  | bool (b : Bool) : Json
  | num (n : Int) : Json
  | str (s : String) : Json
  | arr (elems : List Json) : Json
  | obj (members : List (String × Json)) : Json

/-- Look up a key among ordered dict members (first occurrence; members
are unique in practice). -/
def getMember : List (String × Json) → String → Option Json
  | [], _ => none
  | (k', v) :: rest, k => if k' = k then some v else getMember rest k

/-- Look up a key in a Python dict. `none` models a `KeyError` on access,
or a `TypeError` when the value is not a dict at all. -/
def Json.getKey : Json → String → Option Json
  | .obj members, k => getMember members k
  | _, _ => none

/-- Python dict assignment `d[k] = v`: replace in place if the key exists,
otherwise append at the end (insertion order). -/
def setMember : List (String × Json) → String → Json → List (String × Json)
  | [], k, v => [(k, v)]
  | (k', v') :: rest, k, v =>
      if k' = k then (k, v) :: rest else (k', v') :: setMember rest k v

/-- One cache namespace directory: filename stem (hex digest) to stored JSON. -/
abbrev Cache := List (String × Json)

/-- `os.path.exists` + `json.load` for a cache file. -/
def Cache.lookup : Cache → String → Option Json
  | [], _ => none
  | (k', v) :: rest, k => if k' = k then some v else Cache.lookup rest k

/-- `json.dump(..., open(path, "w"))`: overwrite the file if present,
otherwise create it. -/
def Cache.write : Cache → String → Json → Cache
  | [], k, v => [(k, v)]
  | (k', v') :: rest, k, v =>
      if k' = k then (k, v) :: rest else (k', v') :: Cache.write rest k v

/-- The three cache namespaces under `/data/cache`. -/
structure Env where
  documents : Cache
  queries : Cache
  reports : Cache

/-- One typed part of a chat message (`{"type": "text", ...}` or
`{"type": "image_url", ...}`). -/
inductive Part where
  | text (s : String) : Part
  | imageUrl (url : String) : Part
deriving DecidableEq, Repr

/-- Message content: plain string or a list of typed parts. -/
inductive Content where
  | str (s : String) : Content
  | parts (ps : List Part) : Content
deriving DecidableEq, Repr

/-- One chat turn. -/
structure Message where
  role : String
  content : Content
deriving DecidableEq, Repr

/-- The payload `call_openrouter` posts to the fixed endpoint. -/
structure GwRequest where
  model : String
  messages : List Message
  maxTokens : Nat
deriving DecidableEq, Repr

/-- Observable effects of one operation, in order. -/
inductive Event where
  | sleep (ms : Nat) : Event
  | net (req : GwRequest) : Event
deriving DecidableEq, Repr

/-- Number of remote-gateway invocations recorded in a trace. -/
def netCount (tr : List Event) : Nat :=
  (tr.filter fun e => match e with | .net _ => true | .sleep _ => false).length

/-- Errors that propagate out of an operation uncaught. -/
inductive AppErr where
  | http (code : Nat) : AppErr
  | jsonDecode : AppErr
  | typeErr : AppErr
deriving DecidableEq, Repr

/-- An uploaded file as the Streamlit widget hands it over: raw bytes, the
upload's filename, and its declared MIME type. -/
structure UFile where
  content : List Nat
  name : String
  mime : String
deriving DecidableEq, Repr

/-- The remote gateway as an oracle: request to raw response text, or an
HTTP/network error (`requests` exception or `raise_for_status`). -/
abbrev Oracle := GwRequest → Except Nat String

/-- Abstract strict JSON parser standing for Python's `json.loads`. -/
abbrev JLoads := String → Option Json

/-! ### SHA-256 (`hashlib.sha256(...).hexdigest()`), executable over byte lists -/

/-- Truncate to a 32-bit word. -/
def w32 (n : Nat) : Nat := n % 4294967296

/-- 32-bit modular addition. -/
def wadd (a b : Nat) : Nat := (a + b) % 4294967296

/-- Rotate a 32-bit word right by `n` bits. -/
def rotr (x n : Nat) : Nat := ((x >>> n) ||| (x <<< (32 - n))) % 4294967296

/-- 32-bit bitwise complement. -/
def wnot (x : Nat) : Nat := 4294967295 ^^^ x

def ch (x y z : Nat) : Nat := (x &&& y) ^^^ (wnot x &&& z)

def maj (x y z : Nat) : Nat := (x &&& y) ^^^ (x &&& z) ^^^ (y &&& z)

def bigSigma0 (x : Nat) : Nat := rotr x 2 ^^^ rotr x 13 ^^^ rotr x 22

def bigSigma1 (x : Nat) : Nat := rotr x 6 ^^^ rotr x 11 ^^^ rotr x 25

def smallSigma0 (x : Nat) : Nat := rotr x 7 ^^^ rotr x 18 ^^^ (x >>> 3)

def smallSigma1 (x : Nat) : Nat := rotr x 17 ^^^ rotr x 19 ^^^ (x >>> 10)

/-- The 64 SHA-256 round constants (decimal). -/
def K256 : List Nat :=
  [1116352408, 1899447441, 3049323471, 3921009573, 961987163,
   1508970993, 2453635748, 2870763221, 3624381080, 310598401,
   607225278, 1426881987, 1925078388, 2162078206, 2614888103,
   3248222580, 3835390401, 4022224774, 264347078, 604807628,
   770255983, 1249150122, 1555081692, 1996064986, 2554220882,
   2821834349, 2952996808, 3210313671, 3336571891, 3584528711,
   113926993, 338241895, 666307205, 773529912, 1294757372,
   1396182291, 1695183700, 1986661051, 2177026350, 2456956037,
   2730485921, 2820302411, 3259730800, 3345764771, 3516065817,
   3600352804, 4094571909, 275423344, 430227734, 506948616,
   659060556, 883997877, 958139571, 1322822218, 1537002063,
   1747873779, 1955562222, 2024104815, 2227730452, 2361852424,
   2428436474, 2756734187, 3204031479, 3329325298]

/-- The SHA-256 initial hash state (decimal). -/
def H256 : List Nat :=
  [1779033703, 3144134277, 1013904242, 2773480762,
   1359893119, 2600822924, 528734635, 1541459225]

/-- Big-endian byte representation of `n`, `len` bytes wide. -/
def beBytes : Nat → Nat → List Nat
  | _, 0 => []
  | n, l + 1 => beBytes (n / 256) l ++ [n % 256]

/-- SHA-256 padding: append `0x80`, zero bytes to 56 mod 64, then the
bit length as 8 big-endian bytes. -/
def padMsg (msg : List Nat) : List Nat :=
  let l := msg.length
  msg ++ [128] ++ List.replicate ((119 - l % 64) % 64) 0 ++ beBytes (8 * l) 8

/-- Split a byte list into 64-byte blocks (`fuel` bounds the recursion so
that it is structural; `fuel = l.length` always suffices). -/
def chunksAux : Nat → List Nat → List (List Nat)
  | 0, _ => []
  | _, [] => []
  | fuel + 1, x :: xs => (x :: xs.take 63) :: chunksAux fuel (xs.drop 63)

/-- Split a byte list into 64-byte blocks. -/
def chunks64 (l : List Nat) : List (List Nat) := chunksAux l.length l

/-- Big-endian 32-bit words from bytes. -/
def bytesToWords : List Nat → List Nat
  | a :: b :: c :: d :: rest =>
      (a * 16777216 + b * 65536 + c * 256 + d) :: bytesToWords rest
  | _ => []

/-- Extend the 16 block words by `fuel` schedule words. -/
def sched (ws : List Nat) : Nat → List Nat
  | 0 => ws
  | f + 1 =>
      let n := ws.length
      let w := wadd (wadd (smallSigma1 (ws.getD (n - 2) 0)) (ws.getD (n - 7) 0))
                    (wadd (smallSigma0 (ws.getD (n - 15) 0)) (ws.getD (n - 16) 0))
      sched (ws ++ [w]) f

/-- One SHA-256 round on working state `[a,b,c,d,e,f,g,h]`. -/
def round256 (st : List Nat) (kw : Nat × Nat) : List Nat :=
  match st with
  | [a, b, c, d, e, f, g, h] =>
      let t1 := wadd h (wadd (bigSigma1 e) (wadd (ch e f g) (wadd kw.1 kw.2)))
      let t2 := wadd (bigSigma0 a) (maj a b c)
      [wadd t1 t2, a, b, c, wadd d t1, e, f, g]
  | other => other

/-- Compress one 64-byte block into the hash state. -/
def compressBlock (h : List Nat) (block : List Nat) : List Nat :=
  let ws := sched (bytesToWords block) 48
  let st := (K256.zip ws).foldl round256 h
  List.zipWith wadd h st

/-- SHA-256 digest of a byte list, as eight 32-bit words. -/
def sha256words (msg : List Nat) : List Nat :=
  (chunks64 (padMsg msg)).foldl compressBlock H256

/-- Lower-case hex digit. -/
def hexDigit (n : Nat) : Char :=
  if n < 10 then Char.ofNat (48 + n) else Char.ofNat (87 + n)

/-- `d` lower-case hex digits of `n`, most significant first. -/
def hexChars : Nat → Nat → List Char
  | 0, _ => []
  | d + 1, n => hexChars d (n / 16) ++ [hexDigit (n % 16)]

/-- `hashlib.sha256(data).hexdigest()`. -/
def sha256hex (msg : List Nat) : String :=
  String.mk ((sha256words msg).map (hexChars 8)).flatten

/-- `hash_bytes` from the source: SHA-256 hex digest of raw bytes. -/
def hash_bytes (data : List Nat) : String := sha256hex data

/-- UTF-8 encoding of one character. -/
def utf8Char (c : Char) : List Nat :=
  let n := c.toNat
  if n < 128 then [n]
  else if n < 2048 then [192 + n / 64, 128 + n % 64]
  else if n < 65536 then [224 + n / 4096, 128 + n / 64 % 64, 128 + n % 64]
  else [240 + n / 262144, 128 + n / 4096 % 64, 128 + n / 64 % 64, 128 + n % 64]

/-- Python `str.encode()`: UTF-8 bytes of a string. -/
def utf8Bytes (s : String) : List Nat := (s.data.map utf8Char).flatten

/-! ### base64 (`base64.b64encode(raw).decode("utf-8")`) -/

/-- The standard base64 alphabet. -/
def b64Alphabet : String :=
  "ABCDEFGHIJKLMNOPQRSTUVWXYZabcdefghijklmnopqrstuvwxyz0123456789+/"

def b64Char (n : Nat) : Char := b64Alphabet.data.getD n 'A'

/-- base64-encode a byte list with `=` padding. -/
def b64encode : List Nat → String
  | a :: b :: c :: rest =>
      let n := a * 65536 + b * 256 + c
      String.mk [b64Char (n / 262144), b64Char (n / 4096 % 64),
                 b64Char (n / 64 % 64), b64Char (n % 64)] ++ b64encode rest
  | [a, b] =>
      let n := a * 65536 + b * 256
      String.mk [b64Char (n / 262144), b64Char (n / 4096 % 64),
                 b64Char (n / 64 % 64), '=']
  | [a] =>
      let n := a * 65536
      String.mk [b64Char (n / 262144), b64Char (n / 4096 % 64), '=', '=']
  | [] => ""

/-! ### The records table (`pd.DataFrame`) as far as the cache keys need it -/

/-- The records table: column names plus rows of textual cells. Cells are
assumed free of commas and newlines, which is all the CSV model below
supports (pandas quoting is not modelled). -/
structure DataFrame where
  columns : List String
  rows : List (List String)
deriving DecidableEq, Repr

/-- `df.to_csv()` with pandas defaults: the index IS included — the header
gets a leading empty cell and every row is prefixed with its positional
index (the app builds `df` fresh from the records list, so the index is
`0..n-1`). Line terminator is a newline. -/
def DataFrame.to_csv (df : DataFrame) : String :=
  "," ++ String.intercalate "," df.columns ++ "\n"
  ++ String.join (df.rows.enum.map fun p =>
       toString p.1 ++ "," ++ String.intercalate "," p.2 ++ "\n")

/-- `df.to_string(index=False)` as used in the prompt bodies. Pandas'
column padding and alignment are abstracted to single-space separation;
the resulting string only feeds the gateway oracle, over which every
theorem quantifies. -/
def DataFrame.to_text (df : DataFrame) : String :=
  String.intercalate "\n"
    (String.intercalate " " df.columns :: df.rows.map (String.intercalate " "))

/-- Modelled from the spec: the spec's query-cache serialization, a table
"serialized without an index marker" (CSV with no index column). Exists
only to be compared with the serialization the code actually hashes. -/
def DataFrame.to_csv_noindex (df : DataFrame) : String :=
  String.intercalate "," df.columns ++ "\n"
  ++ String.join (df.rows.map fun r => String.intercalate "," r ++ "\n")

/-! ### Constants and prompts -/

def MODEL_VISION : String := "anthropic/claude-3.5-sonnet"

/-- The fixed category list (`ALLOWED_CATEGORIES`): sales, purchases,
operating expenses, salaries, taxes, services, other. -/
def ALLOWED_CATEGORIES : List String :=
  ["مبيعات", "مشتريات", "مصروفات تشغيل", "رواتب", "ضرائب", "خدمات", "أخرى"]

/-- The document-extraction prompt, exactly as the f-string in
`extract_document` produces it (leading and trailing newline included). -/
def extractPrompt : String :=
  "\nأنت محاسب محترف في السوق المصري.\n\nاستخرج البيانات التالية بدقة:\n- نوع المستند\n- التاريخ (YYYY-MM-DD)\n- العميل أو المورد\n- المبلغ الإجمالي (رقم فقط)\n- ضريبة القيمة المضافة (رقم فقط)\n- التصنيف (واحد فقط من القائمة):\n"
  ++ String.intercalate ", " ALLOWED_CATEGORIES
  ++ "\n\nأرجع النتيجة بصيغة JSON فقط.\n"

/-- The semantic-query prompt from `semantic_query` (the doubled braces of
the f-string collapse to single braces in the output). -/
def queryPrompt (df : DataFrame) (question : String) : String :=
  "\nالبيانات التالية:\n" ++ df.to_text ++ "\n\nالسؤال:\n" ++ question
  ++ "\n\nأجب بصيغة JSON:\n\x7b\n  \"answer\": \"\",\n  \"rows\": []\n\x7d\n"

/-- The report prompt from `generate_report`. -/
def reportPrompt (df : DataFrame) : String :=
  "\nالبيانات:\n" ++ df.to_text
  ++ "\n\nأنشئ تقريرًا ماليًا احترافيًا بصيغة JSON:\n\x7b\n \"العنوان\": \"\",\n \"إجمالي_الإيرادات\": 0,\n \"إجمالي_المصروفات\": 0,\n \"صافي_الربح\": 0,\n \"الملخص\": \"\"\n\x7d\n"

/-! ### Operations -/

/-- Post an assembled payload to the remote endpoint (the oracle) and
record the network request in the trace. -/
def gwCall (oracle : Oracle) (req : GwRequest) : Except Nat String × List Event :=
  (oracle req, [Event.net req])

/-- `call_openrouter`: build the payload with the fixed model identifier
and post it. -/
def call_openrouter (oracle : Oracle) (messages : List Message) (maxTokens : Nat) :
    Except Nat String × List Event :=
  gwCall oracle ⟨MODEL_VISION, messages, maxTokens⟩

/-- The exact payload `extract_document` hands to `call_openrouter` on a
cache miss: the extraction prompt as a text part plus the file embedded as
a base64 data URI with its declared MIME type, `max_tokens=1500` (the
`call_openrouter` default). -/
def extractReq (file : UFile) : GwRequest :=
  ⟨MODEL_VISION,
   [⟨"user", .parts [.text extractPrompt,
                     .imageUrl ("data:" ++ file.mime ++ ";base64," ++ b64encode file.content)]⟩],
   1500⟩

/-- `extract_document(file)`: hash the raw bytes, return the cached JSON
after a 2-second sleep on a hit; on a miss call the gateway with the
extraction prompt plus the base64 data URI, parse strictly, overwrite the
`filename` member with the upload's name, persist and return. A non-dict
parse result makes the Python dict assignment raise `TypeError`. -/
def extract_document (oracle : Oracle) (jloads : JLoads) (file : UFile) (env : Env) :
    Except AppErr Json × Env × List Event :=
  let file_hash := hash_bytes file.content
  match env.documents.lookup file_hash with
  | some cached => (.ok cached, env, [.sleep 2000])
  | none =>
    match gwCall oracle (extractReq file) with
    | (.error code, tr) => (.error (.http code), env, tr)
    | (.ok result, tr) =>
      match jloads result with
      | none => (.error .jsonDecode, env, tr)
      | some (.obj members) =>
          let data := Json.obj (setMember members "filename" (.str file.name))
          (.ok data, { env with documents := env.documents.write file_hash data }, tr)
      | some _ => (.error .typeErr, env, tr)

/-- The query-cache key of `semantic_query`:
`hashlib.sha256((df.to_csv() + question).encode()).hexdigest()`. -/
def queryKey (df : DataFrame) (question : String) : String :=
  sha256hex (utf8Bytes (df.to_csv ++ question))

/-- The exact payload `semantic_query` hands to `call_openrouter` on a
cache miss: the table-plus-question prompt, `max_tokens=2000`. -/
def queryReq (df : DataFrame) (question : String) : GwRequest :=
  ⟨MODEL_VISION, [⟨"user", .str (queryPrompt df question)⟩], 2000⟩

/-- `semantic_query(df, question)`: cached JSON after a 1.5-second sleep on
a hit; on a miss call the gateway with the table-plus-question prompt,
parse strictly, persist whatever parsed (no key validation) and return. -/
def semantic_query (oracle : Oracle) (jloads : JLoads) (df : DataFrame) (question : String)
    (env : Env) : Except AppErr Json × Env × List Event :=
  let key := queryKey df question
  match env.queries.lookup key with
  | some cached => (.ok cached, env, [.sleep 1500])
  | none =>
    match gwCall oracle (queryReq df question) with
    | (.error code, tr) => (.error (.http code), env, tr)
    | (.ok result, tr) =>
      match jloads result with
      | none => (.error .jsonDecode, env, tr)
      | some parsed => (.ok parsed, { env with queries := env.queries.write key parsed }, tr)

/-- The report-cache key of `generate_report`:
`hashlib.sha256(df.to_csv().encode()).hexdigest()`. -/
def reportKey (df : DataFrame) : String :=
  sha256hex (utf8Bytes df.to_csv)

/-- The exact payload `generate_report` hands to `call_openrouter` on a
cache miss: the report prompt, `max_tokens=1500`. -/
def reportReq (df : DataFrame) : GwRequest :=
  ⟨MODEL_VISION, [⟨"user", .str (reportPrompt df)⟩], 1500⟩

/-- `generate_report(df)`: cached JSON after a 2-second sleep on a hit; on
a miss call the gateway with the report prompt, parse strictly, persist
and return. -/
def generate_report (oracle : Oracle) (jloads : JLoads) (df : DataFrame) (env : Env) :
    Except AppErr Json × Env × List Event :=
  let key := reportKey df
  match env.reports.lookup key with
  | some cached => (.ok cached, env, [.sleep 2000])
  | none =>
    match gwCall oracle (reportReq df) with
    | (.error code, tr) => (.error (.http code), env, tr)
    | (.ok result, tr) =>
      match jloads result with
      | none => (.error .jsonDecode, env, tr)
      | some parsed => (.ok parsed, { env with reports := env.reports.write key parsed }, tr)

/-! ### PDF export -/

inductive PageSize where
  | A4 : PageSize
deriving DecidableEq, Repr

/-- A single ASCII apostrophe, for Python repr of strings. -/
def sq : String := String.mk [Char.ofNat 39]

mutual
/-- Python `repr` of a JSON value (as `str` renders it inside containers).
JSON numbers are modelled as integers. -/
def pyRepr : Json → String
  | .null => "None"
  | .bool true => "True"
  | .bool false => "False"
  | .num n => toString n
  | .str s => sq ++ s ++ sq
  | .arr xs => "[" ++ pyReprList xs ++ "]"
  | .obj ms => "\x7b" ++ pyReprMembers ms ++ "\x7d"

def pyReprList : List Json → String
  | [] => ""
  | [x] => pyRepr x
  | x :: y :: xs => pyRepr x ++ ", " ++ pyReprList (y :: xs)

def pyReprMembers : List (String × Json) → String
  | [] => ""
  | [(k, v)] => sq ++ k ++ sq ++ ": " ++ pyRepr v
  | (k, v) :: m :: ms => sq ++ k ++ sq ++ ": " ++ pyRepr v ++ ", " ++ pyReprMembers (m :: ms)
end

/-- Python `str` of a JSON value, as `f"{k}: {v}"` formats `v`: a string
renders without quotes, everything else as its repr. -/
def pyStr : Json → String
  | .str s => s
  | j => pyRepr j

/-- A rendered single-page PDF: page size, the `beginText` origin, and the
`textLine` lines in order. -/
structure PdfDoc where
  pagesize : PageSize
  textOrigin : Nat × Nat
  lines : List String
deriving DecidableEq, Repr

/-- The `/tmp` filesystem as path-to-document. -/
abbrev FS := List (String × PdfDoc)

def FS.lookup : FS → String → Option PdfDoc
  | [], _ => none
  | (k', v) :: rest, k => if k' = k then some v else FS.lookup rest k

/-- `canvas.Canvas(file_path, ...)` + `c.save()`: overwrite the file if
present, create it otherwise. -/
def FS.write : FS → String → PdfDoc → FS
  | [], k, v => [(k, v)]
  | (k', v') :: rest, k, v =>
      if k' = k then (k, v) :: rest else (k', v') :: FS.write rest k v

/-- `export_pdf(report)`: render each mapping entry as one `"<key>: <value>"`
line in insertion order on a single A4 page starting at `(40, 800)`, write
the document to the fixed path `/tmp/report.pdf`, and return that path. -/
def export_pdf (report : List (String × Json)) (fs : FS) : String × FS :=
  let file_path := "/tmp/report.pdf"
  let doc : PdfDoc := ⟨.A4, (40, 800), report.map fun kv => kv.1 ++ ": " ++ pyStr kv.2⟩
  (file_path, fs.write file_path doc)

/-- The upload batch loop from the UI layer
(`for f in files: records.append(extract_document(f))`): strictly
sequential, aborting at the first raised error. -/
def process_uploads (oracle : Oracle) (jloads : JLoads) (files : List UFile) (env : Env) :
    Except AppErr (List Json) × Env × List Event :=
  match files with
  | [] => (.ok [], env, [])
  | f :: rest =>
    match extract_document oracle jloads f env with
    | (.error e, env', tr) => (.error e, env', tr)
    | (.ok j, env', tr) =>
      match process_uploads oracle jloads rest env' with
      | (.ok js, env'', tr') => (.ok (j :: js), env'', tr ++ tr')
      | (.error e, env'', tr') => (.error e, env'', tr ++ tr')

/-- Decidable substring test used to state facts about the prompt text. -/
def subList : List Char → List Char → Bool
  | [], _ => true
  | _ :: _, [] => false
  | n :: ns, h :: hs =>
      (List.isPrefixOf (n :: ns) (h :: hs)) || subList (n :: ns) hs

/-- `needle in hay` on strings. -/
def strContains (hay needle : String) : Bool := subList needle.data hay.data

/-- Modelled from the spec: the query-cache key as the spec describes it,
the SHA-256 hex digest of the table "serialized without an index marker"
concatenated with the question. Declared only to be compared with the
`queryKey` the code computes. -/
def queryKeySpec (df : DataFrame) (question : String) : String :=
  sha256hex (utf8Bytes (df.to_csv_noindex ++ question))

/-! ### Concrete fixtures for witnesses and counterexamples -/

def emptyEnv : Env := ⟨[], [], []⟩

def fileA : UFile := ⟨[1, 2, 3], "a.pdf", "application/pdf"⟩

/-- Same bytes as `fileA`, different upload name. -/
def fileB : UFile := ⟨[1, 2, 3], "b.pdf", "application/pdf"⟩

def fileC : UFile := ⟨[9, 9], "c.png", "image/png"⟩

/-- A file whose model response is not valid JSON. -/
def fileBad : UFile := ⟨[7], "bad.png", "image/png"⟩

/-- A file on which the remote call fails with HTTP 500. -/
def fileD : UFile := ⟨[5], "d.png", "image/png"⟩

/-- Model output for `fileA`: note it fabricates its own `filename`. -/
def recA : List (String × Json) :=
  [("نوع المستند", .str "فاتورة"), ("filename", .str "model-made-up.png")]

def recC : List (String × Json) := [("المبلغ الإجمالي", .num 100)]

/-- The record the extractor produces for `fileA` (fabricated provenance
overwritten in place with the upload's name). -/
def dataA : Json := .obj [("نوع المستند", .str "فاتورة"), ("filename", .str "a.pdf")]

/-- The record the extractor produces for `fileC` (provenance appended). -/
def dataC : Json := .obj [("المبلغ الإجمالي", .num 100), ("filename", .str "c.png")]

/-- A syntactically valid query answer lacking both the `answer` and the
`rows` key. -/
def qAns : Json := .obj [("res", .str "x")]

def repJ : Json := .obj [("العنوان", .str "تقرير")]

def wdf : DataFrame := ⟨["a", "b"], [["1", "2"], ["3", "4"]]⟩

/-- `wdf` with its two rows swapped. -/
def wdfSwapped : DataFrame := ⟨["a", "b"], [["3", "4"], ["1", "2"]]⟩

def wdf2 : DataFrame := ⟨["c"], [["z"]]⟩

def wdf3 : DataFrame := ⟨["d"], [["w"]]⟩

/-- The gateway oracle used by the concrete scenarios. -/
def wOracle : Oracle := fun req =>
  if req = extractReq fileA then .ok "A"
  else if req = extractReq fileC then .ok "C"
  else if req = extractReq fileBad then .ok "BAD"
  else if req = queryReq wdf "what" then .ok "Q"
  else if req = queryReq wdf3 "q3" then .ok "BAD"
  else if req = reportReq wdf3 then .ok "BAD"
  else .error 500

/-- The strict parser used by the concrete scenarios (`"BAD"` is not
valid JSON). -/
def wJloads : JLoads := fun s =>
  if s = "A" then some (.obj recA)
  else if s = "C" then some (.obj recC)
  else if s = "Q" then some qAns
  else none

/-- Cache state after extracting `fileA` starting from an empty cache. -/
def wEnv1 : Env := ⟨[(hash_bytes fileA.content, dataA)], [], []⟩

/-- Cache state holding one entry in each namespace. -/
def wEnvHit : Env :=
  ⟨[(hash_bytes fileA.content, dataA)],
   [(queryKey wdf "what", qAns)],
   [(reportKey wdf, repJ)]⟩

/-- Cache state after the `wdf`/"what" query starting from an empty cache. -/
def wEnvQ : Env := ⟨[], [(queryKey wdf "what", qAns)], []⟩

/-! ### Cache lemmas -/

theorem Cache.lookup_write_self (c : Cache) (k : String) (v : Json) :
    (c.write k v).lookup k = some v := by
  induction c with
  | nil => simp [Cache.write, Cache.lookup]
  | cons hd tl ih =>
      obtain ⟨k', v'⟩ := hd
      by_cases hk : k' = k
      · simp [Cache.write, Cache.lookup, hk]
      · simp [Cache.write, Cache.lookup, hk, ih]

theorem Cache.lookup_write_ne (c : Cache) (k k' : String) (v : Json) (h : k' ≠ k) :
    (c.write k v).lookup k' = c.lookup k' := by
  induction c with
  | nil => simp [Cache.write, Cache.lookup, Ne.symm h]
  | cons hd tl ih =>
      obtain ⟨k0, v0⟩ := hd
      by_cases hk : k0 = k
      · subst hk
        simp [Cache.write, Cache.lookup, h, Ne.symm h]
      · simp [Cache.write, Cache.lookup, hk, ih]

theorem fs_lookup_write_self (fs : FS) (k : String) (v : PdfDoc) :
    (fs.write k v).lookup k = some v := by
  induction fs with
  | nil => simp [FS.write, FS.lookup]
  | cons hd tl ih =>
      obtain ⟨k', v'⟩ := hd
      by_cases hk : k' = k
      · simp [FS.write, FS.lookup, hk]
      · simp [FS.write, FS.lookup, hk, ih]

theorem getKey_setMember (ms : List (String × Json)) (k : String) (v : Json) :
    Json.getKey (.obj (setMember ms k v)) k = some v := by
  induction ms with
  | nil => simp [setMember, Json.getKey, getMember]
  | cons hd tl ih =>
      obtain ⟨k', v'⟩ := hd
      by_cases hk : k' = k
      · simp [setMember, Json.getKey, getMember, hk]
      · simpa [setMember, Json.getKey, getMember, hk] using ih

/-! ### Unfolding lemmas for the three cached operations -/

theorem extract_hit (oracle : Oracle) (jloads : JLoads) (file : UFile) (env : Env) (v : Json)
    (h : env.documents.lookup (hash_bytes file.content) = some v) :
    extract_document oracle jloads file env = (.ok v, env, [.sleep 2000]) := by
  simp only [extract_document, h]

theorem extract_miss_obj (oracle : Oracle) (jloads : JLoads) (file : UFile) (env : Env)
    (txt : String) (ms : List (String × Json))
    (hmiss : env.documents.lookup (hash_bytes file.content) = none)
    (hok : oracle (extractReq file) = .ok txt)
    (hparse : jloads txt = some (.obj ms)) :
    extract_document oracle jloads file env =
      (.ok (.obj (setMember ms "filename" (.str file.name))),
       { env with documents := env.documents.write (hash_bytes file.content) (.obj (setMember ms "filename" (.str file.name))) },
       [.net (extractReq file)]) := by
  simp only [extract_document, gwCall, hmiss, hok, hparse]

theorem extract_miss_http (oracle : Oracle) (jloads : JLoads) (file : UFile) (env : Env)
    (code : Nat)
    (hmiss : env.documents.lookup (hash_bytes file.content) = none)
    (herr : oracle (extractReq file) = .error code) :
    extract_document oracle jloads file env =
      (.error (.http code), env, [.net (extractReq file)]) := by
  simp only [extract_document, gwCall, hmiss, herr]

theorem extract_miss_parse (oracle : Oracle) (jloads : JLoads) (file : UFile) (env : Env)
    (txt : String)
    (hmiss : env.documents.lookup (hash_bytes file.content) = none)
    (hok : oracle (extractReq file) = .ok txt)
    (hparse : jloads txt = none) :
    extract_document oracle jloads file env =
      (.error .jsonDecode, env, [.net (extractReq file)]) := by
  simp only [extract_document, gwCall, hmiss, hok, hparse]

theorem query_hit (oracle : Oracle) (jloads : JLoads) (df : DataFrame) (q : String) (env : Env)
    (v : Json) (h : env.queries.lookup (queryKey df q) = some v) :
    semantic_query oracle jloads df q env = (.ok v, env, [.sleep 1500]) := by
  simp only [semantic_query, h]

theorem query_miss_ok (oracle : Oracle) (jloads : JLoads) (df : DataFrame) (q : String)
    (env : Env) (txt : String) (j : Json)
    (hmiss : env.queries.lookup (queryKey df q) = none)
    (hok : oracle (queryReq df q) = .ok txt)
    (hparse : jloads txt = some j) :
    semantic_query oracle jloads df q env =
      (.ok j, { env with queries := env.queries.write (queryKey df q) j },
       [.net (queryReq df q)]) := by
  simp only [semantic_query, gwCall, hmiss, hok, hparse]

theorem query_miss_http (oracle : Oracle) (jloads : JLoads) (df : DataFrame) (q : String)
    (env : Env) (code : Nat)
    (hmiss : env.queries.lookup (queryKey df q) = none)
    (herr : oracle (queryReq df q) = .error code) :
    semantic_query oracle jloads df q env =
      (.error (.http code), env, [.net (queryReq df q)]) := by
  simp only [semantic_query, gwCall, hmiss, herr]

theorem query_miss_parse (oracle : Oracle) (jloads : JLoads) (df : DataFrame) (q : String)
    (env : Env) (txt : String)
    (hmiss : env.queries.lookup (queryKey df q) = none)
    (hok : oracle (queryReq df q) = .ok txt)
    (hparse : jloads txt = none) :
    semantic_query oracle jloads df q env =
      (.error .jsonDecode, env, [.net (queryReq df q)]) := by
  simp only [semantic_query, gwCall, hmiss, hok, hparse]

theorem report_hit (oracle : Oracle) (jloads : JLoads) (df : DataFrame) (env : Env) (v : Json)
    (h : env.reports.lookup (reportKey df) = some v) :
    generate_report oracle jloads df env = (.ok v, env, [.sleep 2000]) := by
  simp only [generate_report, h]

theorem report_miss_http (oracle : Oracle) (jloads : JLoads) (df : DataFrame) (env : Env)
    (code : Nat)
    (hmiss : env.reports.lookup (reportKey df) = none)
    (herr : oracle (reportReq df) = .error code) :
    generate_report oracle jloads df env =
      (.error (.http code), env, [.net (reportReq df)]) := by
  simp only [generate_report, gwCall, hmiss, herr]

theorem report_miss_parse (oracle : Oracle) (jloads : JLoads) (df : DataFrame) (env : Env)
    (txt : String)
    (hmiss : env.reports.lookup (reportKey df) = none)
    (hok : oracle (reportReq df) = .ok txt)
    (hparse : jloads txt = none) :
    generate_report oracle jloads df env =
      (.error .jsonDecode, env, [.net (reportReq df)]) := by
  simp only [generate_report, gwCall, hmiss, hok, hparse]

/-! ### Derived facts about the extractor and the batch loop -/

theorem string_data_append (a b : String) : (a ++ b).data = a.data ++ b.data := rfl

theorem string_eq_of_data {a b : String} (h : a.data = b.data) : a = b :=
  congrArg String.mk h

/-- After a successful extraction, the document cache maps the file's
content hash to the returned record (whether the call was a hit or a
fresh computation). -/
theorem extract_ok_lookup (oracle : Oracle) (jloads : JLoads) (file : UFile) (env env' : Env)
    (r : Json) (tr : List Event)
    (h : extract_document oracle jloads file env = (.ok r, env', tr)) :
    env'.documents.lookup (hash_bytes file.content) = some r := by
  rcases hx : env.documents.lookup (hash_bytes file.content) with _ | v
  · rcases ho : oracle (extractReq file) with code | txt
    · simp [extract_document, gwCall, hx, ho] at h
    · rcases hp : jloads txt with _ | j
      · simp [extract_document, gwCall, hx, ho, hp] at h
      · cases j with
        | obj ms =>
            rw [extract_miss_obj oracle jloads file env txt ms hx ho hp] at h
            simp only [Prod.mk.injEq, Except.ok.injEq] at h
            obtain ⟨h1, h2, h3⟩ := h
            subst h1
            subst h2
            exact Cache.lookup_write_self env.documents (hash_bytes file.content) _
        | null => simp [extract_document, gwCall, hx, ho, hp] at h
        | bool b => simp [extract_document, gwCall, hx, ho, hp] at h
        | num n => simp [extract_document, gwCall, hx, ho, hp] at h
        | str s => simp [extract_document, gwCall, hx, ho, hp] at h
        | arr xs => simp [extract_document, gwCall, hx, ho, hp] at h
  · rw [extract_hit oracle jloads file env v hx] at h
    simp only [Prod.mk.injEq, Except.ok.injEq] at h
    obtain ⟨h1, h2, h3⟩ := h
    subst h1
    subst h2
    exact hx

/-- A failed extraction leaves the cache state untouched. -/
theorem extract_error_env (oracle : Oracle) (jloads : JLoads) (file : UFile) (env env' : Env)
    (err : AppErr) (tr : List Event)
    (h : extract_document oracle jloads file env = (.error err, env', tr)) : env' = env := by
  rcases hx : env.documents.lookup (hash_bytes file.content) with _ | v
  · rcases ho : oracle (extractReq file) with code | txt
    · rw [extract_miss_http oracle jloads file env code hx ho] at h
      simp only [Prod.mk.injEq] at h
      exact h.2.1.symm
    · rcases hp : jloads txt with _ | j
      · rw [extract_miss_parse oracle jloads file env txt hx ho hp] at h
        simp only [Prod.mk.injEq] at h
        exact h.2.1.symm
      · cases j with
        | obj ms =>
            rw [extract_miss_obj oracle jloads file env txt ms hx ho hp] at h
            simp at h
        | null =>
            simp only [extract_document, gwCall, hx, ho, hp, Prod.mk.injEq] at h
            exact h.2.1.symm
        | bool b =>
            simp only [extract_document, gwCall, hx, ho, hp, Prod.mk.injEq] at h
            exact h.2.1.symm
        | num n =>
            simp only [extract_document, gwCall, hx, ho, hp, Prod.mk.injEq] at h
            exact h.2.1.symm
        | str s =>
            simp only [extract_document, gwCall, hx, ho, hp, Prod.mk.injEq] at h
            exact h.2.1.symm
        | arr xs =>
            simp only [extract_document, gwCall, hx, ho, hp, Prod.mk.injEq] at h
            exact h.2.1.symm
  · rw [extract_hit oracle jloads file env v hx] at h
    simp at h

/-- Sequencing of the batch loop: a successful prefix followed by a failing
remainder gives the remainder's failure, with traces concatenated. -/
theorem process_uploads_append_err (oracle : Oracle) (jloads : JLoads)
    (l1 l2 : List UFile) (env e1 e2 : Env) (js : List Json) (t1 t2 : List Event) (err : AppErr)
    (h1 : process_uploads oracle jloads l1 env = (.ok js, e1, t1))
    (h2 : process_uploads oracle jloads l2 e1 = (.error err, e2, t2)) :
    process_uploads oracle jloads (l1 ++ l2) env = (.error err, e2, t1 ++ t2) := by
  induction l1 generalizing env js t1 with
  | nil =>
      simp only [process_uploads, Prod.mk.injEq, Except.ok.injEq] at h1
      obtain ⟨hj, he, ht⟩ := h1
      subst he
      subst ht
      simpa using h2
  | cons f rest ih =>
      rcases hx : extract_document oracle jloads f env with ⟨res, env', tr⟩
      cases res with
      | error e =>
          simp only [process_uploads, hx] at h1
          simp at h1
      | ok j =>
          rcases hy : process_uploads oracle jloads rest env' with ⟨res2, env'', tr'⟩
          cases res2 with
          | error e =>
              simp only [process_uploads, hx, hy] at h1
              simp at h1
          | ok js' =>
              simp only [process_uploads, hx, hy, Prod.mk.injEq, Except.ok.injEq] at h1
              obtain ⟨hj, he, ht⟩ := h1
              subst he
              subst ht
              have ihr := ih env' js' tr' hy
              simp only [List.cons_append, process_uploads, hx, List.append_eq, ihr,
                List.append_assoc]

/-! ### Claims -/

/-- C1: calling the document extractor twice with identical byte content
(same file): whenever the first call returns a record, the second call
against the resulting cache state returns the identical cached JSON
record, leaves the state unchanged, and its trace is a single 2-second
sleep containing zero network requests (the remote gateway is never
invoked). -/
theorem C1_extract_idempotent (oracle : Oracle) (jloads : JLoads) (file : UFile)
    (env env' : Env) (r : Json) (tr : List Event)
    (h : extract_document oracle jloads file env = (.ok r, env', tr)) :
    extract_document oracle jloads file env' = (.ok r, env', [.sleep 2000]) ∧
    netCount (extract_document oracle jloads file env').2.2 = 0 := by
  have hl := extract_ok_lookup oracle jloads file env env' r tr h
  have h2 := extract_hit oracle jloads file env' r hl
  refine ⟨h2, ?_⟩
  rw [h2]
  rfl

set_option maxRecDepth 100000 in
theorem C1_extract_idempotent_witness :
    extract_document wOracle wJloads fileA wEnv1 = (.ok dataA, wEnv1, [.sleep 2000]) ∧
    netCount (extract_document wOracle wJloads fileA wEnv1).2.2 = 0 :=
  C1_extract_idempotent wOracle wJloads fileA emptyEnv wEnv1 dataA
    [.net (extractReq fileA)] rfl

set_option maxRecDepth 100000 in
/-- C2 counterexample: upload `fileA` (named `a.pdf`), then upload the same
bytes under the name `b.pdf`. The second call is a cache hit and returns
the cached record whose source-filename field is still `a.pdf`, not the
exact filename `b.pdf` of that upload — so the claim fails for results
served from the cache. -/
theorem C2_provenance_cex :
    fileB.name = "b.pdf" ∧
    (extract_document wOracle wJloads fileB wEnv1).1 = .ok dataA ∧
    Json.getKey dataA "filename" = some (.str "a.pdf") ∧
    ¬ Json.getKey dataA "filename" = some (.str fileB.name) := by
  refine ⟨rfl, rfl, rfl, ?_⟩
  intro hcontra
  have h1 : ("a.pdf" : String) = "b.pdf" := by
    have h2 : some (Json.str "a.pdf") = some (Json.str "b.pdf") := hcontra
    injection h2 with h3
    injection h3
  exact absurd h1 (by decide)

/-- C2 amended: on a cache miss the extractor overwrites the
source-filename field with the exact uploaded filename, regardless of what
the model returned for that field; on a cache hit the cached record is
returned verbatim, so its source-filename is that of the upload that first
populated the entry (not necessarily the current upload's name). -/
theorem C2_provenance_amended (oracle : Oracle) (jloads : JLoads)
    (file1 : UFile) (env1 env1' : Env) (r : Json) (tr1 : List Event)
    (file2 : UFile) (env2 : Env) (v : Json)
    (hmiss : env1.documents.lookup (hash_bytes file1.content) = none)
    (h1 : extract_document oracle jloads file1 env1 = (.ok r, env1', tr1))
    (hhit : env2.documents.lookup (hash_bytes file2.content) = some v) :
    Json.getKey r "filename" = some (.str file1.name) ∧
    extract_document oracle jloads file2 env2 = (.ok v, env2, [.sleep 2000]) := by
  refine ⟨?_, extract_hit oracle jloads file2 env2 v hhit⟩
  rcases ho : oracle (extractReq file1) with code | txt
  · rw [extract_miss_http oracle jloads file1 env1 code hmiss ho] at h1
    simp at h1
  · rcases hp : jloads txt with _ | j
    · rw [extract_miss_parse oracle jloads file1 env1 txt hmiss ho hp] at h1
      simp at h1
    · cases j with
      | obj ms =>
          rw [extract_miss_obj oracle jloads file1 env1 txt ms hmiss ho hp] at h1
          simp only [Prod.mk.injEq, Except.ok.injEq] at h1
          obtain ⟨hr, he, ht⟩ := h1
          subst hr
          exact getKey_setMember ms "filename" (.str file1.name)
      | null => simp [extract_document, gwCall, hmiss, ho, hp] at h1
      | bool b => simp [extract_document, gwCall, hmiss, ho, hp] at h1
      | num n => simp [extract_document, gwCall, hmiss, ho, hp] at h1
      | str s => simp [extract_document, gwCall, hmiss, ho, hp] at h1
      | arr xs => simp [extract_document, gwCall, hmiss, ho, hp] at h1

set_option maxRecDepth 100000 in
theorem C2_provenance_amended_witness :
    Json.getKey dataC "filename" = some (.str fileC.name) ∧
    extract_document wOracle wJloads fileB wEnv1 = (.ok dataA, wEnv1, [.sleep 2000]) :=
  C2_provenance_amended wOracle wJloads fileC emptyEnv
    ⟨[(hash_bytes fileC.content, dataC)], [], []⟩ dataC [.net (extractReq fileC)]
    fileB wEnv1 dataA rfl rfl rfl

/-- C3: in each of the three namespaces, when the key is absent and the
compute step fails — the remote call returns an HTTP error, or the
returned text fails strict JSON parsing — the operation returns that
error, and the cache state is returned unchanged (no entry written). -/
theorem C3_failure_no_write (oracle : Oracle) (jloads : JLoads) (env : Env)
    (f1 f2 : UFile) (df1 df2 : DataFrame) (q1 q2 : String)
    (c1 c2 c3 : Nat) (t1 t2 t3 : String)
    (hd1 : env.documents.lookup (hash_bytes f1.content) = none)
    (hd2 : env.documents.lookup (hash_bytes f2.content) = none)
    (he1 : oracle (extractReq f1) = .error c1)
    (ho1 : oracle (extractReq f2) = .ok t1) (hp1 : jloads t1 = none)
    (hq1 : env.queries.lookup (queryKey df1 q1) = none)
    (hq2 : env.queries.lookup (queryKey df2 q2) = none)
    (he2 : oracle (queryReq df1 q1) = .error c2)
    (ho2 : oracle (queryReq df2 q2) = .ok t2) (hp2 : jloads t2 = none)
    (hr1 : env.reports.lookup (reportKey df1) = none)
    (hr2 : env.reports.lookup (reportKey df2) = none)
    (he3 : oracle (reportReq df1) = .error c3)
    (ho3 : oracle (reportReq df2) = .ok t3) (hp3 : jloads t3 = none) :
    extract_document oracle jloads f1 env = (.error (.http c1), env, [.net (extractReq f1)]) ∧
    extract_document oracle jloads f2 env = (.error .jsonDecode, env, [.net (extractReq f2)]) ∧
    semantic_query oracle jloads df1 q1 env = (.error (.http c2), env, [.net (queryReq df1 q1)]) ∧
    semantic_query oracle jloads df2 q2 env = (.error .jsonDecode, env, [.net (queryReq df2 q2)]) ∧
    generate_report oracle jloads df1 env = (.error (.http c3), env, [.net (reportReq df1)]) ∧
    generate_report oracle jloads df2 env = (.error .jsonDecode, env, [.net (reportReq df2)]) :=
  ⟨extract_miss_http oracle jloads f1 env c1 hd1 he1,
   extract_miss_parse oracle jloads f2 env t1 hd2 ho1 hp1,
   query_miss_http oracle jloads df1 q1 env c2 hq1 he2,
   query_miss_parse oracle jloads df2 q2 env t2 hq2 ho2 hp2,
   report_miss_http oracle jloads df1 env c3 hr1 he3,
   report_miss_parse oracle jloads df2 env t3 hr2 ho3 hp3⟩

set_option maxRecDepth 100000 in
theorem C3_failure_no_write_witness :
    extract_document wOracle wJloads fileD emptyEnv
      = (.error (.http 500), emptyEnv, [.net (extractReq fileD)]) ∧
    extract_document wOracle wJloads fileBad emptyEnv
      = (.error .jsonDecode, emptyEnv, [.net (extractReq fileBad)]) ∧
    semantic_query wOracle wJloads wdf2 "q2" emptyEnv
      = (.error (.http 500), emptyEnv, [.net (queryReq wdf2 "q2")]) ∧
    semantic_query wOracle wJloads wdf3 "q3" emptyEnv
      = (.error .jsonDecode, emptyEnv, [.net (queryReq wdf3 "q3")]) ∧
    generate_report wOracle wJloads wdf2 emptyEnv
      = (.error (.http 500), emptyEnv, [.net (reportReq wdf2)]) ∧
    generate_report wOracle wJloads wdf3 emptyEnv
      = (.error .jsonDecode, emptyEnv, [.net (reportReq wdf3)]) :=
  C3_failure_no_write wOracle wJloads emptyEnv fileD fileBad wdf2 wdf3 "q2" "q3"
    500 500 500 "BAD" "BAD" "BAD"
    rfl rfl rfl rfl rfl rfl rfl rfl rfl rfl rfl rfl rfl rfl rfl

set_option maxRecDepth 100000 in
/-- C4 counterexample: for the concrete two-row table `wdf` and the
question "what", the key the code computes hashes `df.to_csv()` — which
under pandas defaults DOES carry the index column (leading empty header
cell, row numbers) — so it differs from the spec's described key over the
serialization "without an index marker". -/
theorem C4_query_key_cex :
    wdf.to_csv = ",a,b\n0,1,2\n1,3,4\n" ∧
    wdf.to_csv_noindex = "a,b\n1,2\n3,4\n" ∧
    queryKey wdf "what" ≠ queryKeySpec wdf "what" :=
  ⟨rfl, rfl, by decide⟩

set_option maxRecDepth 100000 in
/-- C4 amended: the query cache key is the SHA-256 hex digest of the UTF-8
bytes of `df.to_csv()` — WITH pandas' default index column — concatenated
with the literal question text, and `semantic_query` consults the cache at
exactly this key. Holding the table fixed, distinct questions give
distinct hash inputs (hence distinct keys, SHA-256 collisions aside), and
for the concrete reordered-rows pair `wdf`/`wdfSwapped` (same rows,
different order) the keys themselves differ, as they do for two concrete
distinct questions. -/
theorem C4_query_key_amended (oracle : Oracle) (jloads : JLoads) (df : DataFrame)
    (q q1 q2 : String) (env : Env) (v : Json)
    (hq : q1 ≠ q2)
    (hhit : env.queries.lookup (queryKey df q) = some v) :
    queryKey df q = sha256hex (utf8Bytes (df.to_csv ++ q)) ∧
    semantic_query oracle jloads df q env = (.ok v, env, [.sleep 1500]) ∧
    df.to_csv ++ q1 ≠ df.to_csv ++ q2 ∧
    queryKey wdf "what" ≠ queryKey wdfSwapped "what" ∧
    queryKey wdf "q1" ≠ queryKey wdf "q2" := by
  refine ⟨rfl, query_hit oracle jloads df q env v hhit, ?_, by decide, by decide⟩
  intro hcontra
  apply hq
  have hdata := congrArg String.data hcontra
  rw [string_data_append, string_data_append] at hdata
  exact string_eq_of_data (List.append_cancel_left hdata)

set_option maxRecDepth 100000 in
theorem C4_query_key_amended_witness :
    queryKey wdf "what" = sha256hex (utf8Bytes (wdf.to_csv ++ "what")) ∧
    semantic_query wOracle wJloads wdf "what" wEnvQ = (.ok qAns, wEnvQ, [.sleep 1500]) ∧
    wdf.to_csv ++ "q1" ≠ wdf.to_csv ++ "q2" ∧
    queryKey wdf "what" ≠ queryKey wdfSwapped "what" ∧
    queryKey wdf "q1" ≠ queryKey wdf "q2" :=
  C4_query_key_amended wOracle wJloads wdf "what" "q1" "q2" wEnvQ qAns (by decide) rfl

/-- C5: the batch loop processes uploads strictly in order; once extraction
of a file fails, the loop stops with that error — the trailing files
contribute nothing to the result, the state, or the trace — the failing
extraction itself leaves the cache unchanged, and any record cached before
the failure is still retrievable from the document cache afterwards. -/
theorem C5_batch_abort (oracle : Oracle) (jloads : JLoads)
    (l1 l2 : List UFile) (f g : UFile) (env e1 e1' : Env) (js : List Json)
    (t1 tf : List Event) (err : AppErr) (v : Json)
    (h1 : process_uploads oracle jloads l1 env = (.ok js, e1, t1))
    (h2 : extract_document oracle jloads f e1 = (.error err, e1', tf))
    (hg : e1.documents.lookup (hash_bytes g.content) = some v) :
    process_uploads oracle jloads (l1 ++ f :: l2) env = (.error err, e1', t1 ++ tf) ∧
    e1' = e1 ∧
    extract_document oracle jloads g e1' = (.ok v, e1', [.sleep 2000]) := by
  have henv := extract_error_env oracle jloads f e1 e1' err tf h2
  subst henv
  refine ⟨?_, rfl, extract_hit oracle jloads g e1' v hg⟩
  have hstep : process_uploads oracle jloads (f :: l2) e1' = (.error err, e1', tf) := by
    simp only [process_uploads, h2]
  exact process_uploads_append_err oracle jloads l1 (f :: l2) env e1' e1' js t1 tf err h1 hstep

set_option maxRecDepth 100000 in
theorem C5_batch_abort_witness :
    process_uploads wOracle wJloads ([fileA] ++ fileBad :: [fileC]) emptyEnv
      = (.error .jsonDecode, wEnv1, [.net (extractReq fileA)] ++ [.net (extractReq fileBad)]) ∧
    wEnv1 = wEnv1 ∧
    extract_document wOracle wJloads fileA wEnv1 = (.ok dataA, wEnv1, [.sleep 2000]) :=
  C5_batch_abort wOracle wJloads [fileA] [fileC] fileBad fileA emptyEnv wEnv1 wEnv1 [dataA]
    [.net (extractReq fileA)] [.net (extractReq fileBad)] .jsonDecode dataA rfl rfl rfl

set_option maxRecDepth 100000 in
/-- C6 counterexample: the extraction prompt the code builds never mentions
income (not "income", "دخل", nor "إيراد"), so it cannot demand
classification of the document into income/expense, and it contains no
null/no-guessing instruction (not "null", "تخمين", nor "لا تخمن") —
refuting parts (a) and the null clause of (c) of the claim. -/
theorem C6_prompt_cex :
    strContains extractPrompt "income" = false ∧
    strContains extractPrompt "دخل" = false ∧
    strContains extractPrompt "إيراد" = false ∧
    strContains extractPrompt "null" = false ∧
    strContains extractPrompt "تخمين" = false ∧
    strContains extractPrompt "لا تخمن" = false := by decide

set_option maxRecDepth 100000 in
/-- C6 amended: on a document-cache miss the prompt (b) lists the exact
field names to extract (document type, date in YYYY-MM-DD format, client
or supplier, total amount number-only, VAT number-only, category), (c)
constrains the category to the fixed enumerated set — "one only from the
list", with every allowed category spelled out — and (d) demands JSON-only
output; but it does not demand income/expense classification and has no
forbid-guessing/nulls instruction. -/
theorem C6_prompt_amended :
    strContains extractPrompt "نوع المستند" = true ∧
    strContains extractPrompt "التاريخ (YYYY-MM-DD)" = true ∧
    strContains extractPrompt "العميل أو المورد" = true ∧
    strContains extractPrompt "المبلغ الإجمالي (رقم فقط)" = true ∧
    strContains extractPrompt "ضريبة القيمة المضافة (رقم فقط)" = true ∧
    strContains extractPrompt "التصنيف (واحد فقط من القائمة)" = true ∧
    ALLOWED_CATEGORIES.all (fun c => strContains extractPrompt c) = true ∧
    strContains extractPrompt "JSON فقط" = true := by decide

/-- C7: exporting a report mapping with `n` entries writes a single A4 page
whose text block starts at `(40, 800)` (near the top of the page) and
contains exactly `n` lines — one per mapping entry, in insertion order,
each of the form `"<key>: <value>"`. -/
theorem C7_pdf_render (report : List (String × Json)) (fs : FS) :
    (export_pdf report fs).2.lookup "/tmp/report.pdf" =
      some ⟨.A4, (40, 800), report.map fun kv => kv.1 ++ ": " ++ pyStr kv.2⟩ ∧
    (report.map fun kv => kv.1 ++ ": " ++ pyStr kv.2).length = report.length := by
  exact ⟨fs_lookup_write_self fs _ _, by simp⟩

/-- C8: on a cache hit in any of the three namespaces, the operation
returns the persisted JSON after a single artificial sleep whose duration
lies between 1.5 and 2 seconds (2 s for documents and reports, 1.5 s for
queries), and its trace contains zero remote calls. -/
theorem C8_hit_delay (oracle : Oracle) (jloads : JLoads) (env : Env) (file : UFile)
    (df1 df2 : DataFrame) (q : String) (v1 v2 v3 : Json)
    (h1 : env.documents.lookup (hash_bytes file.content) = some v1)
    (h2 : env.queries.lookup (queryKey df1 q) = some v2)
    (h3 : env.reports.lookup (reportKey df2) = some v3) :
    (∃ d, 1500 ≤ d ∧ d ≤ 2000 ∧
        extract_document oracle jloads file env = (.ok v1, env, [.sleep d])) ∧
    netCount (extract_document oracle jloads file env).2.2 = 0 ∧
    (∃ d, 1500 ≤ d ∧ d ≤ 2000 ∧
        semantic_query oracle jloads df1 q env = (.ok v2, env, [.sleep d])) ∧
    netCount (semantic_query oracle jloads df1 q env).2.2 = 0 ∧
    (∃ d, 1500 ≤ d ∧ d ≤ 2000 ∧
        generate_report oracle jloads df2 env = (.ok v3, env, [.sleep d])) ∧
    netCount (generate_report oracle jloads df2 env).2.2 = 0 := by
  have e1 := extract_hit oracle jloads file env v1 h1
  have e2 := query_hit oracle jloads df1 q env v2 h2
  have e3 := report_hit oracle jloads df2 env v3 h3
  refine ⟨⟨2000, by omega, by omega, e1⟩, ?_, ⟨1500, by omega, by omega, e2⟩, ?_,
    ⟨2000, by omega, by omega, e3⟩, ?_⟩
  · rw [e1]
    rfl
  · rw [e2]
    rfl
  · rw [e3]
    rfl

set_option maxRecDepth 100000 in
theorem C8_hit_delay_witness :
    (∃ d, 1500 ≤ d ∧ d ≤ 2000 ∧
        extract_document wOracle wJloads fileA wEnvHit = (.ok dataA, wEnvHit, [.sleep d])) ∧
    netCount (extract_document wOracle wJloads fileA wEnvHit).2.2 = 0 ∧
    (∃ d, 1500 ≤ d ∧ d ≤ 2000 ∧
        semantic_query wOracle wJloads wdf "what" wEnvHit = (.ok qAns, wEnvHit, [.sleep d])) ∧
    netCount (semantic_query wOracle wJloads wdf "what" wEnvHit).2.2 = 0 ∧
    (∃ d, 1500 ≤ d ∧ d ≤ 2000 ∧
        generate_report wOracle wJloads wdf wEnvHit = (.ok repJ, wEnvHit, [.sleep d])) ∧
    netCount (generate_report wOracle wJloads wdf wEnvHit).2.2 = 0 :=
  C8_hit_delay wOracle wJloads wEnvHit fileA wdf wdf "what" dataA qAns repJ rfl rfl rfl

/-- C9: when the model returns syntactically valid JSON that lacks the
`answer` (or `rows`) key, `semantic_query` still writes it to the query
cache and returns it unchanged — the missing key surfaces only when the
caller accesses it — and an identical second query hits the cache, makes
no remote call, and returns the very same key-less JSON. -/
theorem C9_query_missing_key (oracle : Oracle) (jloads : JLoads) (df : DataFrame)
    (q : String) (env : Env) (txt : String) (j : Json)
    (hmiss : env.queries.lookup (queryKey df q) = none)
    (hok : oracle (queryReq df q) = .ok txt)
    (hparse : jloads txt = some j)
    (hnokey : j.getKey "answer" = none ∨ j.getKey "rows" = none) :
    semantic_query oracle jloads df q env =
      (.ok j, { env with queries := env.queries.write (queryKey df q) j },
       [.net (queryReq df q)]) ∧
    semantic_query oracle jloads df q
        { env with queries := env.queries.write (queryKey df q) j } =
      (.ok j, { env with queries := env.queries.write (queryKey df q) j }, [.sleep 1500]) ∧
    netCount [Event.sleep 1500] = 0 ∧
    (j.getKey "answer" = none ∨ j.getKey "rows" = none) := by
  refine ⟨query_miss_ok oracle jloads df q env txt j hmiss hok hparse, ?_, rfl, hnokey⟩
  exact query_hit oracle jloads df q _ j (Cache.lookup_write_self env.queries _ j)

set_option maxRecDepth 100000 in
theorem C9_query_missing_key_witness :
    semantic_query wOracle wJloads wdf "what" emptyEnv
      = (.ok qAns, wEnvQ, [.net (queryReq wdf "what")]) ∧
    semantic_query wOracle wJloads wdf "what" wEnvQ = (.ok qAns, wEnvQ, [.sleep 1500]) ∧
    netCount [Event.sleep 1500] = 0 ∧
    (qAns.getKey "answer" = none ∨ qAns.getKey "rows" = none) :=
  C9_query_missing_key wOracle wJloads wdf "what" emptyEnv "Q" qAns rfl rfl rfl (Or.inl rfl)

/-- C10: the PDF exporter always returns the constant path
`/tmp/report.pdf`; a second export overwrites the same file, after which
the path holds the second rendering and the first rendering is no longer
retrievable there. -/
theorem C10_pdf_overwrite (r1 r2 : List (String × Json)) (fs : FS)
    (hne : (r1.map fun kv => kv.1 ++ ": " ++ pyStr kv.2)
         ≠ (r2.map fun kv => kv.1 ++ ": " ++ pyStr kv.2)) :
    (export_pdf r1 fs).1 = "/tmp/report.pdf" ∧
    (export_pdf r2 (export_pdf r1 fs).2).1 = "/tmp/report.pdf" ∧
    (export_pdf r2 (export_pdf r1 fs).2).2.lookup "/tmp/report.pdf" =
      some ⟨.A4, (40, 800), r2.map fun kv => kv.1 ++ ": " ++ pyStr kv.2⟩ ∧
    (export_pdf r2 (export_pdf r1 fs).2).2.lookup "/tmp/report.pdf" ≠
      some ⟨.A4, (40, 800), r1.map fun kv => kv.1 ++ ": " ++ pyStr kv.2⟩ := by
  have h3 : (export_pdf r2 (export_pdf r1 fs).2).2.lookup "/tmp/report.pdf" =
      some ⟨.A4, (40, 800), r2.map fun kv => kv.1 ++ ": " ++ pyStr kv.2⟩ :=
    fs_lookup_write_self _ _ _
  refine ⟨rfl, rfl, h3, ?_⟩
  intro hcontra
  rw [h3] at hcontra
  simp only [Option.some.injEq, PdfDoc.mk.injEq] at hcontra
  exact hne hcontra.2.2.symm

theorem C10_pdf_overwrite_witness :
    (export_pdf [("a", Json.null)] []).1 = "/tmp/report.pdf" ∧
    (export_pdf [("b", Json.null)] (export_pdf [("a", Json.null)] []).2).1
      = "/tmp/report.pdf" ∧
    (export_pdf [("b", Json.null)] (export_pdf [("a", Json.null)] []).2).2.lookup
        "/tmp/report.pdf"
      = some ⟨.A4, (40, 800), [("b", Json.null)].map fun kv => kv.1 ++ ": " ++ pyStr kv.2⟩ ∧
    (export_pdf [("b", Json.null)] (export_pdf [("a", Json.null)] []).2).2.lookup
        "/tmp/report.pdf"
      ≠ some ⟨.A4, (40, 800), [("a", Json.null)].map fun kv => kv.1 ++ ": " ++ pyStr kv.2⟩ :=
  C10_pdf_overwrite [("a", Json.null)] [("b", Json.null)] [] (by decide)

end App
